import Mathlib

/-!
Shallow embedding of the LED indicator subsystem (src/leds.c): the blink
execution engine, the request queue, the completion semaphore, the startup
sequencer and the event listeners, together with theorems checking the
natural-language specification against this embedding.
-/

set_option maxRecDepth 4000

/-- An RGB color triple, embedding the C type struct led_rgb. -/
structure LedRgb where
  r : Nat
  g : Nat
  b : Nat
deriving DecidableEq, Repr

def COLOR_RED : LedRgb := ⟨255, 0, 0⟩

def COLOR_GREEN : LedRgb := ⟨0, 255, 0⟩

def COLOR_BLUE : LedRgb := ⟨0, 0, 255⟩

def COLOR_YELLOW : LedRgb := ⟨255, 255, 0⟩

def COLOR_MAGENTA : LedRgb := ⟨255, 0, 255⟩

def COLOR_CYAN : LedRgb := ⟨0, 255, 255⟩

def COLOR_WHITE : LedRgb := ⟨255, 255, 255⟩

def COLOR_OFF : LedRgb := ⟨0, 0, 0⟩

/-- Blink timing patterns, embedding the CONFIG_INDICATOR_LED_..._PATTERN
uint16 arrays of leds.c. -/
def CONFIG_INDICATOR_LED_LAYER_PATTERN : List Nat := [80, 120]

def CONFIG_INDICATOR_LED_BATTERY_CRITICAL_PATTERN : List Nat := [40, 40]

def CONFIG_INDICATOR_LED_BATTERY_HIGH_PATTERN : List Nat := [800, 200]

def CONFIG_INDICATOR_LED_BATTERY_LOW_PATTERN : List Nat := [400, 200]

def CONFIG_INDICATOR_LED_BLE_PROFILE_CONNECTED_PATTERN : List Nat := [800, 200]

def CONFIG_INDICATOR_LED_BLE_PROFILE_OPEN_PATTERN : List Nat := [400, 200]

def CONFIG_INDICATOR_LED_PROFILE_UNCONNECTED_PATTERN : List Nat := [300, 200]

def STAY_ON : List Nat := [10]

/-- Layer color mapping LAYER_COLORS of leds.c (8 entries, layer 0 = off). -/
def LAYER_COLORS : List LedRgb :=
  [⟨0, 0, 0⟩, ⟨255, 0, 0⟩, ⟨0, 255, 0⟩, ⟨0, 0, 255⟩,
   ⟨255, 255, 0⟩, ⟨255, 0, 255⟩, ⟨0, 255, 255⟩, ⟨255, 255, 255⟩]

/-- A blink work item, embedding struct blink_item of leds.c. The C pair
(sequence pointer, sequence_len) is embedded as a single list. -/
structure BlinkItem where
  sequence : List Nat
  n_repeats : Nat
  color : LedRgb
  is_persistent : Bool
deriving DecidableEq, Repr

/-- An observable action of the engine on the LED: a pixel write performed
through led_strip_update_rgb, or a k_sleep pause of the given milliseconds. -/
inductive LedEvent where
  | write (c : LedRgb)
  | sleep (ms : Nat)
deriving DecidableEq, Repr

/-- Trace of one pass of the inner for loop of led_do_blink (leds.c lines
136-147) starting at index i: write item color at even indices and off at odd
indices, then sleep sequence[i] milliseconds. -/
def led_blink_sequence_pass (color : LedRgb) : Nat → List Nat → List LedEvent
  | _, [] => []
  | i, t :: rest =>
      LedEvent.write (if i % 2 = 0 then color else COLOR_OFF) ::
      LedEvent.sleep t :: led_blink_sequence_pass color (i + 1) rest

/-- Trace of the outer repeat loop of led_do_blink (leds.c lines 135-154) with
the given number of repetitions remaining: each repetition plays the sequence,
and after each repetition except the last the LED is written off and the
engine sleeps 200 ms. -/
def led_blink_loop (color : LedRgb) (seq : List Nat) : Nat → List LedEvent
  | 0 => []
  | 1 => led_blink_sequence_pass color 0 seq
  | n + 2 =>
      led_blink_sequence_pass color 0 seq ++
      (LedEvent.write COLOR_OFF :: LedEvent.sleep 200 :: []) ++
      led_blink_loop color seq (n + 1)

/-- Embedding of led_do_blink (leds.c lines 118-159), explicit in the
persistent-color memory cell led_current_persistent_color: given the item and
the memory value on entry, it returns the LED event trace and the memory value
on exit. A persistent item overwrites the memory and writes its color directly;
a blink item writes off, sleeps 100 ms, plays the repeat loop and finally
writes the current persistent memory value. -/
def led_do_blink (blink : BlinkItem) (mem : LedRgb) : List LedEvent × LedRgb :=
  if blink.is_persistent then
    ([LedEvent.write blink.color], blink.color)
  else
    (LedEvent.write COLOR_OFF :: LedEvent.sleep 100 ::
       (led_blink_loop blink.color blink.sequence blink.n_repeats ++
        [LedEvent.write mem]),
     mem)

/-- Projection of a trace to the colors written to the LED strip, in order,
discarding the sleeps. -/
def traceWrites : List LedEvent → List LedRgb
  | [] => []
  | LedEvent.write c :: rest => c :: traceWrites rest
  | LedEvent.sleep _ :: rest => traceWrites rest

/-- Modelled from the spec: the Zephyr bounded message-queue primitive k_msgq
is not part of this repository; leds.c declares led_msgq with capacity 6 via
K_MSGQ_DEFINE. Per the spec the queue is a bounded FIFO: a non-blocking put
appends when a slot is free and returns success, and returns a dropped result
leaving the queue unchanged when all 6 slots are taken. -/
def k_msgq_put (q : List BlinkItem) (item : BlinkItem) : Bool × List BlinkItem :=
  if q.length < 6 then (true, q ++ [item]) else (false, q)

/-- Modelled from the spec: dequeue of the Zephyr message queue returns the
oldest item (FIFO); when the queue is empty the consumer blocks, embedded here
as none. -/
def k_msgq_get (q : List BlinkItem) : Option (BlinkItem × List BlinkItem) :=
  match q with
  | [] => none
  | x :: rest => some (x, rest)

/-- Modelled from the spec: the Zephyr semaphore primitive k_sem is not part
of this repository; leds.c declares led_blink_complete_sem with initial count
0 and limit 1 via K_SEM_DEFINE. A give saturates at the limit. -/
structure KSem where
  count : Nat
  limit : Nat
deriving DecidableEq, Repr

/-- Modelled from the spec: k_sem_give increments the count, saturating at
the semaphore limit (a raise on an already-raised single-slot signal is a
no-op overwrite, not an error). -/
def k_sem_give (s : KSem) : KSem :=
  ⟨min (s.count + 1) s.limit, s.limit⟩

/-- Modelled from the spec: k_sem_take consumes one raise when the count is
positive and reports success; with count 0 the bounded wait times out and
reports failure, leaving the semaphore unchanged. Real elapsed time is
abstracted away; only the boolean outcome is embedded. -/
def k_sem_take (s : KSem) : Bool × KSem :=
  if 0 < s.count then (true, ⟨s.count - 1, s.limit⟩) else (false, s)

/-- Initial state of led_blink_complete_sem (K_SEM_DEFINE, count 0, limit 1). -/
def led_blink_complete_sem : KSem := ⟨0, 1⟩

/-- Embedding of wait_for_blink_completion (leds.c lines 114-116): take the
completion semaphore with a bounded wait and report whether it was raised. -/
def wait_for_blink_completion (s : KSem) (_timeout_ms : Nat) : Bool × KSem :=
  k_sem_take s

/-- State visible to the engine worker: the request queue, the completion
semaphore and the persistent-color memory cell. -/
structure EngineState where
  queue : List BlinkItem
  sem : KSem
  led_current_persistent_color : LedRgb
deriving DecidableEq, Repr

/-- One iteration of led_process_thread (leds.c lines 369-388): dequeue a
blink item (blocking, none when the queue is empty), run led_do_blink on it,
give the completion semaphore exactly once, then sleep the configured
inter-item interval. -/
def led_process_step (interval_ms : Nat) (st : EngineState) :
    Option (List LedEvent × EngineState) :=
  match k_msgq_get st.queue with
  | none => none
  | some (blink, rest) =>
      let out := led_do_blink blink st.led_current_persistent_color
      some (out.1 ++ [LedEvent.sleep interval_ms],
            ⟨rest, k_sem_give st.sem, out.2⟩)

/-- Kconfig battery thresholds and repeat counts referenced by leds.c
(CONFIG_INDICATOR_LED_BATTERY_LEVEL_HIGH / _LOW / _CRITICAL and the
corresponding ..._BLINK_REPEAT values); their numeric values are set outside
this source file, so they are carried as parameters. -/
structure BatteryCfg where
  level_high : Nat
  level_low : Nat
  level_critical : Nat
  high_blink_repeat : Nat
  low_blink_repeat : Nat
  critical_blink_repeat : Nat
deriving DecidableEq, Repr

/-- Embedding of the retry loop of indicate_startup_battery (leds.c lines
274-280): while the reading is 0 and the retry counter (post-incremented in
the while condition) is below 10, sleep 100 ms and read again. The external
battery source zmk_battery_state_of_charge is embedded as the function from
attempt number to reading; attempt 0 is the initial read before the loop. -/
def battery_retry_aux (readings : Nat → Nat) : Nat → Nat → Nat → Nat
  | 0, _, level => level
  | fuel + 1, next, level =>
      if level = 0 then battery_retry_aux readings fuel (next + 1) (readings next)
      else level

/-- Battery level obtained by indicate_startup_battery after its initial read
and at most 10 retries. -/
def startup_battery_level (readings : Nat → Nat) : Nat :=
  battery_retry_aux readings 10 1 (readings 0)

/-- Blink item built by indicate_startup_battery (leds.c lines 282-310) from
the settled battery level: 0 after all retries gives the default green blink
with one repeat; otherwise the high / critical / low threshold branches, and
in the middle range a zero-initialized item with n_repeats 0 and color off. -/
def indicate_startup_battery_item (bc : BatteryCfg) (readings : Nat → Nat) :
    BlinkItem :=
  let battery_level := startup_battery_level readings
  if battery_level = 0 then
    ⟨CONFIG_INDICATOR_LED_BATTERY_HIGH_PATTERN, 1, COLOR_GREEN, false⟩
  else if bc.level_high ≤ battery_level then
    ⟨CONFIG_INDICATOR_LED_BATTERY_HIGH_PATTERN, bc.high_blink_repeat,
     COLOR_GREEN, false⟩
  else if battery_level ≤ bc.level_critical then
    ⟨CONFIG_INDICATOR_LED_BATTERY_CRITICAL_PATTERN, bc.critical_blink_repeat,
     COLOR_RED, false⟩
  else if battery_level ≤ bc.level_low then
    ⟨CONFIG_INDICATOR_LED_BATTERY_LOW_PATTERN, bc.low_blink_repeat,
     COLOR_YELLOW, false⟩
  else
    ⟨[], 0, COLOR_OFF, false⟩

/-- Embedding of indicate_startup_battery (leds.c lines 266-317): build the
battery blink item and put it on the request queue without waiting; a failed
put is only logged, no error is propagated to the caller. -/
def indicate_startup_battery (bc : BatteryCfg) (readings : Nat → Nat)
    (q : List BlinkItem) : List BlinkItem :=
  (k_msgq_put q (indicate_startup_battery_item bc readings)).2

/-- Embedding of led_battery_listener_cb (leds.c lines 242-259): before
initialization the event is ignored; otherwise a critical red blink is
enqueued exactly when the reported state of charge is above 0 and at most the
configured critical threshold. -/
def led_battery_listener_cb (initd : Bool) (level_critical : Nat)
    (battery_level : Nat) (q : List BlinkItem) : List BlinkItem :=
  if initd = false then q
  else if 0 < battery_level ∧ battery_level ≤ level_critical then
    (k_msgq_put q
      ⟨CONFIG_INDICATOR_LED_BATTERY_CRITICAL_PATTERN, 1, COLOR_RED, false⟩).2
  else q

/-- Embedding of led_layer_listener_cb (leds.c lines 334-354): before
initialization the event is ignored; otherwise, when the highest active layer
index is inside LAYER_COLORS, a persistent item with that layer's color is
enqueued, and when it is out of range nothing happens. -/
def led_layer_listener_cb (initd : Bool) (layer_idx : Nat)
    (q : List BlinkItem) : List BlinkItem :=
  if initd = false then q
  else if h : layer_idx < LAYER_COLORS.length then
    (k_msgq_put q ⟨STAY_ON, 1, LAYER_COLORS.get ⟨layer_idx, h⟩, true⟩).2
  else q

/-- Status of the active BLE profile as observed by indicate_ble. -/
inductive BleProfileState where
  | connected
  | opened
  | unconnected
deriving DecidableEq, Repr

/-- Blink item built by the central branch of indicate_ble (leds.c lines
165-186) with profile_index one above the active profile index: blue on a
connected profile, yellow on an open profile, red otherwise, repeated
profile_index times. -/
def indicate_ble_item (profile_index : Nat) (st : BleProfileState) : BlinkItem :=
  match st with
  | BleProfileState.connected =>
      ⟨CONFIG_INDICATOR_LED_BLE_PROFILE_CONNECTED_PATTERN, profile_index,
       COLOR_BLUE, false⟩
  | BleProfileState.opened =>
      ⟨CONFIG_INDICATOR_LED_BLE_PROFILE_OPEN_PATTERN, profile_index,
       COLOR_YELLOW, false⟩
  | BleProfileState.unconnected =>
      ⟨CONFIG_INDICATOR_LED_PROFILE_UNCONNECTED_PATTERN, profile_index,
       COLOR_RED, false⟩

/-- Blink item built by the peripheral branch of indicate_ble (leds.c lines
191-203): blue once when connected to the central, red ten times otherwise. -/
def indicate_ble_peripheral_item (connected : Bool) : BlinkItem :=
  if connected then
    ⟨CONFIG_INDICATOR_LED_BLE_PROFILE_CONNECTED_PATTERN, 1, COLOR_BLUE, false⟩
  else
    ⟨CONFIG_INDICATOR_LED_PROFILE_UNCONNECTED_PATTERN, 10, COLOR_RED, false⟩

/-- Compile-time feature selection of leds.c, embedded as data following the
spec's configuration-struct reframing: central is CONFIG_ZMK_SPLIT_ROLE_CENTRAL
or a non-split build, battery_on_boot is CONFIG_ZMK_BATTERY_REPORTING together
with CONFIG_INDICATOR_LED_SHOW_BATTERY_ON_BOOT, show_ble is CONFIG_ZMK_BLE
together with CONFIG_INDICATOR_LED_SHOW_BLE, and show_peripheral_ble is
CONFIG_INDICATOR_LED_SHOW_PERIPHERAL_BLE on a split peripheral. -/
structure InitCfg where
  battery_on_boot : Bool
  show_ble : Bool
  central : Bool
  show_peripheral_ble : Bool
  battery : BatteryCfg
deriving DecidableEq, Repr

/-- External state observed during the startup sequence: the battery readings,
the BLE profile state on the central, the peripheral link state, the highest
active layer and the outcomes of the two bounded completion waits. -/
structure InitEnv where
  readings : Nat → Nat
  profile_index : Nat
  ble_state : BleProfileState
  peripheral_connected : Bool
  layer_idx : Nat
  battery_wait_raised : Bool
  ble_wait_raised : Bool

/-- Ordered action of the startup sequencer led_init_thread: a non-blocking
put of a blink item on the request queue, a bounded completion wait with its
outcome, or setting the readiness flag. -/
inductive InitAction where
  | put (b : BlinkItem)
  | wait (timeout_ms : Nat) (raised : Bool)
  | setReady
deriving DecidableEq, Repr

/-- Puts performed by indicate_ble (leds.c lines 162-207): one from the
central branch when the role is central or non-split, and one from the
peripheral branch when CONFIG_INDICATOR_LED_SHOW_PERIPHERAL_BLE is enabled on
a split peripheral. -/
def indicate_ble_actions (cfg : InitCfg) (env : InitEnv) : List InitAction :=
  (if cfg.central then
    [InitAction.put (indicate_ble_item (env.profile_index + 1) env.ble_state)]
   else []) ++
  (if cfg.show_peripheral_ble && !cfg.central then
    [InitAction.put (indicate_ble_peripheral_item env.peripheral_connected)]
   else [])

/-- Layer-color step of led_init_thread (leds.c lines 421-437): on the central
a persistent item with the current layer's color is enqueued when the layer
index is inside LAYER_COLORS and nothing is enqueued otherwise; on the
peripheral a persistent off item is enqueued. -/
def led_init_layer_actions (central : Bool) (layer_idx : Nat) : List InitAction :=
  if central then
    if h : layer_idx < LAYER_COLORS.length then
      [InitAction.put ⟨STAY_ON, 1, LAYER_COLORS.get ⟨layer_idx, h⟩, true⟩]
    else []
  else [InitAction.put ⟨STAY_ON, 1, COLOR_OFF, true⟩]

/-- Embedding of led_init_thread (leds.c lines 395-441) as its ordered list of
actions: the battery indication with its 5000 ms wait when enabled, then the
BLE indication with its 5000 ms wait when enabled, then the layer-color step,
and finally setting the readiness flag initialized. -/
def led_init_thread (cfg : InitCfg) (env : InitEnv) : List InitAction :=
  (if cfg.battery_on_boot then
    [InitAction.put (indicate_startup_battery_item cfg.battery env.readings),
     InitAction.wait 5000 env.battery_wait_raised]
   else []) ++
  (if cfg.show_ble then
    indicate_ble_actions cfg env ++ [InitAction.wait 5000 env.ble_wait_raised]
   else []) ++
  led_init_layer_actions cfg.central env.layer_idx ++
  [InitAction.setReady]

/-- Test for a put of a persistent item among startup actions. -/
def action_is_persistent_put : InitAction → Bool
  | InitAction.put b => b.is_persistent
  | _ => false

/-- Test for the readiness-flag action among startup actions. -/
def action_is_set_ready : InitAction → Bool
  | InitAction.setReady => true
  | _ => false

/-- Repeated non-blocking puts, used to state FIFO order for a burst of
enqueues. -/
def msgq_put_all (q : List BlinkItem) (xs : List BlinkItem) : List BlinkItem :=
  xs.foldl (fun acc x => (k_msgq_put acc x).2) q

/-- Specification-side blink trace, written from the spec's words so that the
code embedding led_do_blink can be checked against it: write off once and
pause the 100 ms settle interval, then for n in 0 .. repeat_count, for each
index i in sequence write the item color if i is even and off if i is odd and
pause sequence[i] milliseconds, writing off and pausing the 200 ms gap after
each repetition except the last, and after all repetitions write the current
persistent-color memory value. -/
def spec_blink_trace (b : BlinkItem) (mem : LedRgb) : List LedEvent :=
  [LedEvent.write COLOR_OFF, LedEvent.sleep 100] ++
  (List.range b.n_repeats).flatMap (fun n =>
    ((List.enumFrom 0 b.sequence).flatMap (fun p =>
      [LedEvent.write (if p.1 % 2 = 0 then b.color else COLOR_OFF),
       LedEvent.sleep p.2])) ++
    (if n < b.n_repeats - 1 then
      [LedEvent.write COLOR_OFF, LedEvent.sleep 200] else [])) ++
  [LedEvent.write mem]

/-- Concrete configuration used to exercise the startup sequencer: battery
boot indication and BLE indication enabled, central role, peripheral BLE
indication disabled, thresholds high 80 / low 30 / critical 10, three repeats
each. -/
def init_cfg_sample : InitCfg := ⟨true, true, true, false, ⟨80, 30, 10, 3, 3, 3⟩⟩

/-- Startup environment with a healthy mid-range battery and layer 8 active,
one past the end of the 8-entry LAYER_COLORS table. -/
def init_env_layer8 : InitEnv :=
  ⟨fun _ => 50, 0, BleProfileState.connected, true, 8, true, true⟩

/-- Startup environment with a healthy mid-range battery, layer 0 active and
a battery completion wait that timed out. -/
def init_env_layer0 : InitEnv :=
  ⟨fun _ => 50, 0, BleProfileState.connected, true, 0, false, true⟩

theorem traceWrites_append (a b : List LedEvent) :
    traceWrites (a ++ b) = traceWrites a ++ traceWrites b := by
  induction a with
  | nil => rfl
  | cons e rest ih => cases e <;> simp [traceWrites, ih]

theorem traceWrites_led_blink_loop_nil (color : LedRgb) :
    ∀ r, traceWrites (led_blink_loop color [] r) =
      List.replicate (r - 1) COLOR_OFF
  | 0 => rfl
  | 1 => rfl
  | r + 2 => by
      simp [led_blink_loop, led_blink_sequence_pass, traceWrites,
            traceWrites_led_blink_loop_nil color (r + 1), List.replicate_succ]

/-- C1: the claim that a persistent descriptor is rendered as an off write,
a 100 ms settle pause and only then the descriptor color fails on the code:
led_do_blink returns immediately after writing the color on the persistent
path, so the descriptor with sequence [10], one repeat and color red yields
the one-write trace red, not off then a pause then red. -/
theorem persistent_item_no_init_off_counterexample :
    (led_do_blink ⟨[10], 1, COLOR_RED, true⟩ COLOR_OFF).1 =
      [LedEvent.write COLOR_RED] ∧
    [LedEvent.write COLOR_RED] ≠
      [LedEvent.write COLOR_OFF, LedEvent.sleep 100,
       LedEvent.write COLOR_RED] := by
  exact ⟨rfl, by decide⟩

/-- C1 (amended): when the execution engine processes a persistent
descriptor it writes the descriptor color to the LED directly, with no
preceding off write and no settle pause, and persistent-color memory becomes
that color; in particular the persistent descriptor with sequence [10], one
repeat and color red yields the write trace red and memory red. -/
theorem persistent_item_writes_color_directly (b : BlinkItem) (mem : LedRgb)
    (h : b.is_persistent = true) :
    led_do_blink b mem = ([LedEvent.write b.color], b.color) := by
  simp [led_do_blink, h]

/-- C1 (witness): the amended statement evaluated on the red persistent
descriptor of the scenario. -/
theorem persistent_item_writes_color_directly_witness :
    (⟨[10], 1, COLOR_RED, true⟩ : BlinkItem).is_persistent = true ∧
    led_do_blink ⟨[10], 1, COLOR_RED, true⟩ COLOR_OFF =
      ([LedEvent.write COLOR_RED], COLOR_RED) :=
  ⟨rfl, persistent_item_writes_color_directly ⟨[10], 1, COLOR_RED, true⟩
    COLOR_OFF rfl⟩

/-- C2: the claim that a non-persistent descriptor with repeat count 0 or an
empty sequence causes exactly one off write and nothing else fails on the
code: after the (empty) blink loop, led_do_blink unconditionally writes the
current persistent-color memory value, so with memory blue the write trace of
the zero-repeat green descriptor is off then blue, two writes. -/
theorem degenerate_blink_extra_write_counterexample :
    traceWrites (led_do_blink ⟨[], 0, COLOR_GREEN, false⟩ COLOR_BLUE).1 =
      [COLOR_OFF, COLOR_BLUE] ∧
    ([COLOR_OFF, COLOR_BLUE] : List LedRgb) ≠ [COLOR_OFF] := by
  decide

/-- C2 (amended): for every non-persistent descriptor whose repeat count is 0
or whose sequence is empty, every LED write is off except the last, which is
the current persistent-color memory value; with repeat count 0 the trace is
exactly one off write followed by the persistent-color write. -/
theorem degenerate_blink_off_writes_then_memory (b : BlinkItem) (mem : LedRgb)
    (hp : b.is_persistent = false)
    (hd : b.n_repeats = 0 ∨ b.sequence = []) :
    (∃ k, traceWrites (led_do_blink b mem).1 =
      List.replicate k COLOR_OFF ++ [mem]) ∧
    (b.n_repeats = 0 →
      traceWrites (led_do_blink b mem).1 = [COLOR_OFF, mem]) := by
  constructor
  · rcases hd with h0 | hs
    · refine ⟨1, ?_⟩
      simp [led_do_blink, hp, h0, led_blink_loop, traceWrites,
            traceWrites_append, List.replicate_succ]
    · refine ⟨b.n_repeats - 1 + 1, ?_⟩
      simp [led_do_blink, hp, hs, traceWrites, traceWrites_append,
            traceWrites_led_blink_loop_nil, List.replicate_succ]
  · intro h0
    simp [led_do_blink, hp, h0, led_blink_loop, traceWrites,
          traceWrites_append]

/-- C2 (witness): the amended statement evaluated on the zero-repeat green
descriptor with memory blue. -/
theorem degenerate_blink_off_writes_then_memory_witness :
    (⟨[], 0, COLOR_GREEN, false⟩ : BlinkItem).is_persistent = false ∧
    traceWrites (led_do_blink ⟨[], 0, COLOR_GREEN, false⟩ COLOR_BLUE).1 =
      [COLOR_OFF, COLOR_BLUE] :=
  ⟨rfl, (degenerate_blink_off_writes_then_memory ⟨[], 0, COLOR_GREEN, false⟩
    COLOR_BLUE rfl (Or.inl rfl)).2 rfl⟩

/-- C4: a non-persistent descriptor with at least one repeat and a non-empty
sequence always ends with the LED showing the persistent-color memory value
in effect when the blink finishes, whatever the descriptor color and whatever
the memory held, and the memory itself is left unchanged. -/
theorem blink_final_write_is_persistent_memory (b : BlinkItem) (mem : LedRgb)
    (hp : b.is_persistent = false) (hr : 1 ≤ b.n_repeats)
    (hs : b.sequence ≠ []) :
    (traceWrites (led_do_blink b mem).1).getLast? = some mem ∧
    (led_do_blink b mem).2 = mem := by
  constructor
  · have h1 : traceWrites (led_do_blink b mem).1 =
        (COLOR_OFF ::
          traceWrites (led_blink_loop b.color b.sequence b.n_repeats)) ++
        [mem] := by
      simp [led_do_blink, hp, traceWrites, traceWrites_append]
    rw [h1, List.getLast?_concat]
  · simp [led_do_blink, hp]

/-- C4 (witness): the statement evaluated on the green two-repeat descriptor
with memory blue. -/
theorem blink_final_write_is_persistent_memory_witness :
    (⟨[500, 500], 2, COLOR_GREEN, false⟩ : BlinkItem).is_persistent = false ∧
    1 ≤ (⟨[500, 500], 2, COLOR_GREEN, false⟩ : BlinkItem).n_repeats ∧
    (traceWrites
      (led_do_blink ⟨[500, 500], 2, COLOR_GREEN, false⟩ COLOR_BLUE).1).getLast?
      = some COLOR_BLUE :=
  ⟨rfl, by decide,
   (blink_final_write_is_persistent_memory ⟨[500, 500], 2, COLOR_GREEN, false⟩
     COLOR_BLUE rfl (by decide) (by decide)).1⟩

theorem led_blink_sequence_pass_eq (color : LedRgb) (seq : List Nat) :
    ∀ i : Nat, led_blink_sequence_pass color i seq =
      (List.enumFrom i seq).flatMap (fun p =>
        [LedEvent.write (if p.1 % 2 = 0 then color else COLOR_OFF),
         LedEvent.sleep p.2]) := by
  induction seq with
  | nil => intro i; rfl
  | cons t rest ih =>
      intro i
      simp [led_blink_sequence_pass, List.enumFrom, List.flatMap_cons,
            ih (i + 1)]

theorem range_flatMap_const_succ (c : List LedEvent) (r : Nat) :
    (List.range (r + 1)).flatMap (fun _ => c) =
      (List.range r).flatMap (fun _ => c) ++ c := by
  rw [List.range_succ, List.flatMap_append]
  simp

theorem range_flatMap_const_comm (c : List LedEvent) :
    ∀ r, (List.range r).flatMap (fun _ => c) ++ c =
      c ++ (List.range r).flatMap (fun _ => c)
  | 0 => by simp
  | r + 1 => by
      rw [range_flatMap_const_succ]
      calc ((List.range r).flatMap (fun _ => c) ++ c) ++ c
          = (c ++ (List.range r).flatMap (fun _ => c)) ++ c := by
            rw [range_flatMap_const_comm c r]
        _ = c ++ ((List.range r).flatMap (fun _ => c) ++ c) := by
            rw [List.append_assoc]

theorem spec_rep_flatMap_eq (pass gap : List LedEvent) (r : Nat) :
    (List.range (r + 1)).flatMap
      (fun n => pass ++ (if n < r then gap else [])) =
      (List.range r).flatMap (fun _ => pass ++ gap) ++ pass := by
  rw [List.range_succ, List.flatMap_append]
  have h1 : (List.range r).flatMap
      (fun n => pass ++ (if n < r then gap else [])) =
      (List.range r).flatMap (fun _ => pass ++ gap) :=
    List.flatMap_congr (fun a ha => by rw [if_pos (List.mem_range.mp ha)])
  rw [h1]
  simp

theorem led_blink_loop_back_eq (color : LedRgb) (seq : List Nat) :
    ∀ r : Nat, led_blink_loop color seq (r + 1) =
      (List.range r).flatMap
        (fun _ => led_blink_sequence_pass color 0 seq ++
          [LedEvent.write COLOR_OFF, LedEvent.sleep 200]) ++
      led_blink_sequence_pass color 0 seq
  | 0 => by simp [led_blink_loop]
  | r + 1 => by
      show led_blink_sequence_pass color 0 seq ++
          (LedEvent.write COLOR_OFF :: LedEvent.sleep 200 :: []) ++
          led_blink_loop color seq (r + 1) = _
      rw [led_blink_loop_back_eq color seq r, range_flatMap_const_succ,
          range_flatMap_const_comm]
      simp [List.append_assoc]

/-- C5: for every non-persistent descriptor with at least one repeat and a
non-empty sequence, led_do_blink produces exactly the trace described by the
spec: an initial off write and 100 ms settle, then repeat_count passes over
the sequence writing the item color at even indices and off at odd indices
with a pause of sequence[i] after each write, an off write and a 200 ms gap
after every repetition except the last, and a final write of the current
persistent-color memory; the green two-repeat 500/500 scenario is the witness
instance. -/
theorem blink_trace_matches_spec (b : BlinkItem) (mem : LedRgb)
    (hp : b.is_persistent = false) (hr : 1 ≤ b.n_repeats)
    (hs : b.sequence ≠ []) :
    (led_do_blink b mem).1 = spec_blink_trace b mem := by
  obtain ⟨r, hrr⟩ : ∃ r, b.n_repeats = r + 1 := ⟨b.n_repeats - 1, by omega⟩
  simp only [led_do_blink, spec_blink_trace, hp, Bool.false_eq_true,
    if_false, hrr, Nat.add_sub_cancel, led_blink_loop_back_eq,
    spec_rep_flatMap_eq, led_blink_sequence_pass_eq, List.append_assoc,
    List.cons_append, List.nil_append]

/-- C5 (witness): the scenario descriptor with sequence 500/500, two repeats
and color green, with persistent memory blue, yields exactly the claimed
write trace off, 100 ms, green, 500 ms, off, 500 ms, off, 200 ms, green,
500 ms, off, 500 ms, blue. -/
theorem blink_trace_matches_spec_witness :
    (⟨[500, 500], 2, COLOR_GREEN, false⟩ : BlinkItem).is_persistent = false ∧
    1 ≤ (⟨[500, 500], 2, COLOR_GREEN, false⟩ : BlinkItem).n_repeats ∧
    (led_do_blink ⟨[500, 500], 2, COLOR_GREEN, false⟩ COLOR_BLUE).1 =
      [LedEvent.write COLOR_OFF, LedEvent.sleep 100,
       LedEvent.write COLOR_GREEN, LedEvent.sleep 500,
       LedEvent.write COLOR_OFF, LedEvent.sleep 500,
       LedEvent.write COLOR_OFF, LedEvent.sleep 200,
       LedEvent.write COLOR_GREEN, LedEvent.sleep 500,
       LedEvent.write COLOR_OFF, LedEvent.sleep 500,
       LedEvent.write COLOR_BLUE] := by
  refine ⟨rfl, by decide, ?_⟩
  rw [blink_trace_matches_spec ⟨[500, 500], 2, COLOR_GREEN, false⟩ COLOR_BLUE
    rfl (by decide) (by decide)]
  decide

/-- C3: the claim that an out-of-range layer index falls back to a white
descriptor fails on the code: both led_layer_listener_cb and the layer step
of led_init_thread guard the table access and produce nothing at all for
layer 8, so no descriptor, white or otherwise, is generated. -/
theorem out_of_range_layer_no_white_counterexample :
    led_layer_listener_cb true 8 [] = [] ∧
    led_init_layer_actions true 8 = [] ∧
    ¬ ∃ b ∈ led_layer_listener_cb true 8 [], b.color = COLOR_WHITE := by
  decide

/-- C3 (amended): for every active layer index at or beyond the size of
LAYER_COLORS, the layer indication is suppressed rather than indexing out of
bounds: the layer listener leaves the queue unchanged and the startup layer
step produces no action. -/
theorem out_of_range_layer_suppressed (initd : Bool) (layer_idx : Nat)
    (q : List BlinkItem) (h : LAYER_COLORS.length ≤ layer_idx) :
    led_layer_listener_cb initd layer_idx q = q ∧
    led_init_layer_actions true layer_idx = [] := by
  have hlt : ¬ layer_idx < LAYER_COLORS.length := Nat.not_lt.mpr h
  constructor
  · simp [led_layer_listener_cb, hlt]
  · simp [led_init_layer_actions, hlt]

/-- C3 (witness): the amended statement evaluated at layer index 8 with an
empty queue. -/
theorem out_of_range_layer_suppressed_witness :
    LAYER_COLORS.length ≤ 8 ∧
    (led_layer_listener_cb true 8 [] = [] ∧
     led_init_layer_actions true 8 = []) :=
  ⟨by decide, out_of_range_layer_suppressed true 8 [] (by decide)⟩

theorem msgq_put_all_eq_append :
    ∀ (xs q : List BlinkItem), q.length + xs.length ≤ 6 →
      msgq_put_all q xs = q ++ xs
  | [], q, _ => by simp [msgq_put_all]
  | x :: rest, q, h => by
      have hq : q.length < 6 := by
        simp [List.length_cons] at h
        omega
      have hstep : (k_msgq_put q x).2 = q ++ [x] := by
        simp [k_msgq_put, hq]
      have hrec := msgq_put_all_eq_append rest (q ++ [x]) (by
        simp [List.length_append, List.length_cons] at h ⊢
        omega)
      simp only [msgq_put_all, List.foldl_cons] at hrec ⊢
      rw [hstep, hrec, List.append_assoc]
      rfl

/-- C6: the request queue is a bounded FIFO of capacity 6: a put on a queue
with a free slot succeeds and appends the item, a put on a full queue of 6
reports a drop and leaves the 6 pending entries unchanged, a get returns the
oldest item, and a burst of at most 6 puts into the empty queue preserves
exactly the enqueue order. -/
theorem led_msgq_bounded_fifo :
    (∀ (q : List BlinkItem) (item : BlinkItem), q.length < 6 →
      k_msgq_put q item = (true, q ++ [item])) ∧
    (∀ (q : List BlinkItem) (item : BlinkItem), q.length = 6 →
      k_msgq_put q item = (false, q)) ∧
    (∀ (x : BlinkItem) (rest : List BlinkItem),
      k_msgq_get (x :: rest) = some (x, rest)) ∧
    (∀ xs : List BlinkItem, xs.length ≤ 6 → msgq_put_all [] xs = xs) := by
  refine ⟨?_, ?_, ?_, ?_⟩
  · intro q item h
    simp [k_msgq_put, h]
  · intro q item h
    simp [k_msgq_put, h]
  · intro x rest
    rfl
  · intro xs h
    simpa using msgq_put_all_eq_append xs [] (by simpa using h)

/-- C6 (witness): the four queue facts evaluated on concrete queues: a put
into the empty queue, a dropped 7th put into a full queue of 6, a get from a
two-element queue and a two-element burst. -/
theorem led_msgq_bounded_fifo_witness :
    k_msgq_put [] ⟨STAY_ON, 1, COLOR_RED, false⟩ =
      (true, [⟨STAY_ON, 1, COLOR_RED, false⟩]) ∧
    k_msgq_put (List.replicate 6 ⟨STAY_ON, 1, COLOR_GREEN, false⟩)
        ⟨STAY_ON, 1, COLOR_RED, false⟩ =
      (false, List.replicate 6 ⟨STAY_ON, 1, COLOR_GREEN, false⟩) ∧
    k_msgq_get (⟨STAY_ON, 1, COLOR_RED, false⟩ ::
        [⟨STAY_ON, 1, COLOR_GREEN, false⟩]) =
      some (⟨STAY_ON, 1, COLOR_RED, false⟩,
        [⟨STAY_ON, 1, COLOR_GREEN, false⟩]) ∧
    msgq_put_all []
        [⟨STAY_ON, 1, COLOR_RED, false⟩, ⟨STAY_ON, 1, COLOR_GREEN, false⟩] =
      [⟨STAY_ON, 1, COLOR_RED, false⟩, ⟨STAY_ON, 1, COLOR_GREEN, false⟩] :=
  ⟨led_msgq_bounded_fifo.1 [] ⟨STAY_ON, 1, COLOR_RED, false⟩ (by decide),
   led_msgq_bounded_fifo.2.1 (List.replicate 6 ⟨STAY_ON, 1, COLOR_GREEN, false⟩)
     ⟨STAY_ON, 1, COLOR_RED, false⟩ (by decide),
   led_msgq_bounded_fifo.2.2.1 ⟨STAY_ON, 1, COLOR_RED, false⟩
     [⟨STAY_ON, 1, COLOR_GREEN, false⟩],
   led_msgq_bounded_fifo.2.2.2
     [⟨STAY_ON, 1, COLOR_RED, false⟩, ⟨STAY_ON, 1, COLOR_GREEN, false⟩]
     (by decide)⟩

/-- C7: the completion signal is a single-slot primitive: a wait on the
initial, never-raised semaphore times out and reports false; two raises
without an intervening take leave the single slot exactly as one raise does;
a take removes exactly one raise when one is present and nothing otherwise;
and every processed descriptor performs exactly one raise, since each engine
step ends with one k_sem_give of the previous semaphore state. -/
theorem completion_signal_single_slot :
    (wait_for_blink_completion led_blink_complete_sem 5000).1 = false ∧
    (∀ s : KSem, s.limit = 1 → k_sem_give (k_sem_give s) = k_sem_give s) ∧
    (∀ s : KSem, ((k_sem_take s).2.count + 1 = s.count ∧ (k_sem_take s).1 = true)
      ∨ ((k_sem_take s).2 = s ∧ s.count = 0)) ∧
    (∀ (interval_ms : Nat) (st : EngineState) (out : List LedEvent × EngineState),
      led_process_step interval_ms st = some out →
        out.2.sem = k_sem_give st.sem) := by
  refine ⟨rfl, ?_, ?_, ?_⟩
  · intro s h
    cases s with
    | mk c l =>
        have hl : l = 1 := h
        subst hl
        simp [k_sem_give]
  · intro s
    rcases Nat.eq_zero_or_pos s.count with h0 | hpos
    · right
      simp [k_sem_take, h0]
    · left
      constructor
      · have hc : (k_sem_take s).2.count = s.count - 1 := by
          simp [k_sem_take, hpos]
        rw [hc]
        omega
      · simp [k_sem_take, hpos]
  · intro interval_ms st out h
    cases hq : st.queue with
    | nil => simp [led_process_step, k_msgq_get, hq] at h
    | cons x rest =>
        simp only [led_process_step, k_msgq_get, hq, Option.some.injEq] at h
        rw [← h]

/-- C7 (witness): the single-slot facts evaluated concretely: the initial
wait returns false, a second raise on the raised slot is absorbed, a take on
the raised slot consumes the one raise, and one engine step over a one-item
queue gives the semaphore exactly once. -/
theorem completion_signal_single_slot_witness :
    (wait_for_blink_completion led_blink_complete_sem 5000).1 = false ∧
    k_sem_give (k_sem_give ⟨0, 1⟩) = k_sem_give ⟨0, 1⟩ ∧
    (((k_sem_take ⟨1, 1⟩).2.count + 1 = (1 : Nat) ∧ (k_sem_take ⟨1, 1⟩).1 = true)
      ∨ ((k_sem_take ⟨1, 1⟩).2 = ⟨1, 1⟩ ∧ (1 : Nat) = 0)) ∧
    (([LedEvent.write COLOR_RED, LedEvent.sleep 30],
       (⟨[], ⟨1, 1⟩, COLOR_RED⟩ : EngineState)) :
        List LedEvent × EngineState).2.sem =
      k_sem_give (⟨0, 1⟩ : KSem) :=
  ⟨completion_signal_single_slot.1,
   completion_signal_single_slot.2.1 ⟨0, 1⟩ rfl,
   completion_signal_single_slot.2.2.1 ⟨1, 1⟩,
   completion_signal_single_slot.2.2.2 30
     ⟨[⟨STAY_ON, 1, COLOR_RED, true⟩], ⟨0, 1⟩, COLOR_OFF⟩
     ([LedEvent.write COLOR_RED, LedEvent.sleep 30],
      ⟨[], ⟨1, 1⟩, COLOR_RED⟩) (by decide)⟩

theorem battery_retry_aux_all_zero (readings : Nat → Nat) :
    ∀ (fuel next : Nat),
      (∀ k, next ≤ k → k < next + fuel → readings k = 0) →
      battery_retry_aux readings fuel next 0 = 0
  | 0, _, _ => rfl
  | fuel + 1, next, h => by
      have hn : readings next = 0 := h next (Nat.le_refl next) (by omega)
      simp only [battery_retry_aux, if_pos rfl, hn]
      exact battery_retry_aux_all_zero readings fuel (next + 1)
        (fun k hk1 hk2 => h k (by omega) (by omega))

/-- C9: when the battery source reports 0 on the initial read and on each of
the 10 retries, indicate_startup_battery settles on the defined fallback: a
non-persistent green one-repeat blink on the battery-high pattern, which is
enqueued (whenever a slot is free) rather than a suppressed or empty
indication, and no error is surfaced to the caller. -/
theorem startup_battery_zero_fallback (bc : BatteryCfg)
    (readings : Nat → Nat) (q : List BlinkItem)
    (h : ∀ k, k ≤ 10 → readings k = 0) :
    indicate_startup_battery_item bc readings =
      ⟨CONFIG_INDICATOR_LED_BATTERY_HIGH_PATTERN, 1, COLOR_GREEN, false⟩ ∧
    (indicate_startup_battery_item bc readings).n_repeats = 1 ∧
    (indicate_startup_battery_item bc readings).sequence ≠ [] ∧
    (q.length < 6 →
      indicate_startup_battery bc readings q =
        q ++ [⟨CONFIG_INDICATOR_LED_BATTERY_HIGH_PATTERN, 1,
               COLOR_GREEN, false⟩]) := by
  have h0 : startup_battery_level readings = 0 := by
    unfold startup_battery_level
    rw [h 0 (by omega)]
    exact battery_retry_aux_all_zero readings 10 1
      (fun k hk1 hk2 => h k (by omega))
  have hitem : indicate_startup_battery_item bc readings =
      ⟨CONFIG_INDICATOR_LED_BATTERY_HIGH_PATTERN, 1, COLOR_GREEN, false⟩ := by
    simp [indicate_startup_battery_item, h0]
  refine ⟨hitem, by rw [hitem], by rw [hitem]; decide, ?_⟩
  intro hq
  simp [indicate_startup_battery, hitem, k_msgq_put, hq]

/-- C9 (witness): the fallback statement evaluated on the constantly zero
battery source, arbitrary sample thresholds and the empty queue. -/
theorem startup_battery_zero_fallback_witness :
    indicate_startup_battery ⟨80, 30, 10, 3, 3, 3⟩ (fun _ => 0) [] =
      [⟨CONFIG_INDICATOR_LED_BATTERY_HIGH_PATTERN, 1, COLOR_GREEN, false⟩] :=
  (startup_battery_zero_fallback ⟨80, 30, 10, 3, 3, 3⟩ (fun _ => 0) []
    (fun _ _ => rfl)).2.2.2 (by decide)

/-- C10: after initialization, the critical-battery listener enqueues a blink
descriptor exactly when the reported charge level is strictly greater than 0
and at most the configured critical threshold; in particular a reported
level of exactly 0 produces no indication request, and before initialization
every event is ignored. -/
theorem critical_battery_listener_gating (level_critical battery_level : Nat)
    (q : List BlinkItem) :
    (0 < battery_level ∧ battery_level ≤ level_critical →
      led_battery_listener_cb true level_critical battery_level q =
        (k_msgq_put q ⟨CONFIG_INDICATOR_LED_BATTERY_CRITICAL_PATTERN, 1,
          COLOR_RED, false⟩).2) ∧
    (¬ (0 < battery_level ∧ battery_level ≤ level_critical) →
      led_battery_listener_cb true level_critical battery_level q = q) ∧
    led_battery_listener_cb true level_critical 0 q = q ∧
    led_battery_listener_cb false level_critical battery_level q = q := by
  refine ⟨?_, ?_, ?_, ?_⟩
  · intro h
    simp [led_battery_listener_cb, h]
  · intro h
    simp [led_battery_listener_cb, h]
  · simp [led_battery_listener_cb]
  · simp [led_battery_listener_cb]

/-- C10 (witness): the gating evaluated at threshold 10: level 5 enqueues the
critical red blink, level 50 does not, level 0 does not. -/
theorem critical_battery_listener_gating_witness :
    led_battery_listener_cb true 10 5 [] =
      [⟨CONFIG_INDICATOR_LED_BATTERY_CRITICAL_PATTERN, 1, COLOR_RED, false⟩] ∧
    led_battery_listener_cb true 10 50 [] = [] ∧
    led_battery_listener_cb true 10 0 [] = [] :=
  ⟨(critical_battery_listener_gating 10 5 []).1 (by decide),
   (critical_battery_listener_gating 10 50 []).2.1 (by decide),
   (critical_battery_listener_gating 10 0 []).2.2.1⟩

/-- C8: the claim that the startup sequencer always enqueues a persistent
layer-color (or persistent off) descriptor before setting the readiness flag
fails on the code: on the central role with active layer 8 (one past the
LAYER_COLORS table) the layer step is skipped entirely, so the sequencer sets
the readiness flag without ever putting a persistent descriptor. -/
theorem init_thread_missing_persistent_put_counterexample :
    (led_init_thread init_cfg_sample init_env_layer8).filter
      action_is_persistent_put = [] ∧
    InitAction.setReady ∈ led_init_thread init_cfg_sample init_env_layer8 := by
  decide

theorem indicate_ble_actions_no_set_ready (cfg : InitCfg) (env : InitEnv) :
    (indicate_ble_actions cfg env).filter action_is_set_ready = [] := by
  cases hc : cfg.central <;> cases hp : cfg.show_peripheral_ble <;>
    simp [indicate_ble_actions, action_is_set_ready, hc, hp]

/-- C8 (amended): with battery-on-boot and BLE indications enabled, a radio
indication available for the role, and (on the central role) an active layer
index inside the LAYER_COLORS table, the startup sequencer issues the battery
indication and its 5000 ms wait, then, whatever that wait returned, the
radio-link indication and its 5000 ms wait, then puts a persistent
layer-color (or, on the peripheral, persistent off) descriptor without
waiting, and only after all of this sets the readiness flag, exactly once;
when the central's layer index is out of range the persistent put is skipped
but the rest of the order is unchanged. -/
theorem init_thread_ordered_actions (cfg : InitCfg) (env : InitEnv)
    (hb : cfg.battery_on_boot = true) (hsb : cfg.show_ble = true)
    (hcl : cfg.central = true → env.layer_idx < LAYER_COLORS.length)
    (hradio : cfg.central = true ∨ cfg.show_peripheral_ble = true) :
    ∃ persistentItem : BlinkItem,
      persistentItem.is_persistent = true ∧
      led_init_thread cfg env =
        [InitAction.put (indicate_startup_battery_item cfg.battery
           env.readings),
         InitAction.wait 5000 env.battery_wait_raised] ++
        indicate_ble_actions cfg env ++
        [InitAction.wait 5000 env.ble_wait_raised,
         InitAction.put persistentItem,
         InitAction.setReady] ∧
      indicate_ble_actions cfg env ≠ [] ∧
      ((led_init_thread cfg env).filter action_is_set_ready).length = 1 := by
  cases hc : cfg.central with
  | true =>
      have hlt : env.layer_idx < LAYER_COLORS.length := hcl hc
      refine ⟨⟨STAY_ON, 1, LAYER_COLORS.get ⟨env.layer_idx, hlt⟩, true⟩,
        rfl, ?_, ?_, ?_⟩
      · simp [led_init_thread, hb, hsb, hc, led_init_layer_actions, hlt]
      · simp [indicate_ble_actions, hc]
      · simp [led_init_thread, hb, hsb, hc, led_init_layer_actions, hlt,
              List.filter_append, indicate_ble_actions_no_set_ready,
              action_is_set_ready]
  | false =>
      have hp : cfg.show_peripheral_ble = true := by
        rcases hradio with h | h
        · rw [hc] at h
          cases h
        · exact h
      refine ⟨⟨STAY_ON, 1, COLOR_OFF, true⟩, rfl, ?_, ?_, ?_⟩
      · simp [led_init_thread, hb, hsb, hc, led_init_layer_actions]
      · simp [indicate_ble_actions, hc, hp]
      · simp [led_init_thread, hb, hsb, hc, led_init_layer_actions,
              List.filter_append, indicate_ble_actions_no_set_ready,
              action_is_set_ready]

/-- C8 (witness): the amended statement evaluated on the central sample
configuration with layer 0 active and a battery wait that timed out, showing
the radio indication still follows and the readiness flag is set last. -/
theorem init_thread_ordered_actions_witness :
    init_cfg_sample.battery_on_boot = true ∧
    init_cfg_sample.show_ble = true ∧
    (∃ persistentItem : BlinkItem,
      persistentItem.is_persistent = true ∧
      led_init_thread init_cfg_sample init_env_layer0 =
        [InitAction.put (indicate_startup_battery_item init_cfg_sample.battery
           init_env_layer0.readings),
         InitAction.wait 5000 init_env_layer0.battery_wait_raised] ++
        indicate_ble_actions init_cfg_sample init_env_layer0 ++
        [InitAction.wait 5000 init_env_layer0.ble_wait_raised,
         InitAction.put persistentItem,
         InitAction.setReady] ∧
      indicate_ble_actions init_cfg_sample init_env_layer0 ≠ [] ∧
      ((led_init_thread init_cfg_sample init_env_layer0).filter
        action_is_set_ready).length = 1) :=
  ⟨rfl, rfl,
   init_thread_ordered_actions init_cfg_sample init_env_layer0 rfl rfl
     (fun _ => by decide) (Or.inl rfl)⟩
